import Mathlib

/-!
Verification development for the klim_fit repository (fitness-coaching CRUD
application).  The Python source consists of validated record dataclasses
(`models.py`) and a data-access layer (`database_manager.py`) that executes
parameterized SQL against PostgreSQL.

Embedding conventions:
* Python `datetime` values are modelled as abstract ticks (`Nat`); the source
  never inspects them beyond storing/returning, except `isoformat()` strings
  for comments, modelled as an abstract `String` argument.
* Python `float` / SQL `DECIMAL` values are modelled as `ℚ`.  SQL
  `DECIMAL(p,2)` columns round the stored value to two decimal places
  (PostgreSQL rounds half away from zero; all values the source validates are
  positive, where this agrees with `round`).
* Fallible Python code (`raise ValueError`, psycopg2 errors) is modelled with
  `Except String`.
* The database is a record of row lists plus per-table serial counters and the
  current clock.  The SQL statements of `database_manager.py` are translated
  operation by operation, including the `ON DELETE CASCADE` rules declared in
  `create_tables` and the UNIQUE / CHECK constraints of the schema.  Column
  width limits (VARCHAR lengths, INTEGER width, DECIMAL precision overflow)
  are not separately modelled; `ORDER BY` clauses are modelled with a merge
  sort on the ordering key.
* bcrypt (`hash_password` / `verify_password`) is an external collaborator:
  operations that use it take the hash/verify functions as parameters.
-/

namespace KlimFit

/-! ### Comments (models.py)

A comment is a Python dict with string keys and values; we model it as an
association list.  `Workout.__post_init__` / `ExerciseSet.__post_init__`
require the keys `author`, `message`, `timestamp` to be present. -/

abbrev Comment := List (String × String)

/-- Python `c in s` on a string (membership of a character). -/
def pyIn (c : Char) (s : String) : Bool :=
  s.data.contains c

/-- Python `s.strip()` with no argument: removes leading and trailing
whitespace (modelled on the character list; ASCII whitespace). -/
def pyStrip (s : String) : String :=
  ⟨((s.data.dropWhile Char.isWhitespace).reverse.dropWhile Char.isWhitespace).reverse⟩

/-- The `'@'` character of the email validations. -/
def atChar : Char := Char.ofNat 64

/-- Membership of a key in a comment dict (`key in comment`). -/
def commentHasKey (c : Comment) (k : String) : Bool :=
  c.any (fun kv => kv.1 = k)

/-- Check from `__post_init__`:
`all(key in comment for key in ['author', 'message', 'timestamp'])`. -/
def validComment (c : Comment) : Bool :=
  commentHasKey c "author" && commentHasKey c "message" && commentHasKey c "timestamp"

/-! ### Record dataclasses (models.py) -/

/-- The `User` dataclass of models.py (field for field). -/
structure User where
  id : Option Int := none
  name : String := ""
  surname : String := ""
  email : String := ""
  password_hash : Option String := none
  age : Option Int := none
  weight_kg : Option ℚ := none
  created_at : Option Nat := none
  updated_at : Option Nat := none
  deriving Repr, DecidableEq

/-- The validation of `User.__post_init__` (models.py lines 19-26).  The
Python constructor raises `ValueError` exactly when this returns `.error`;
it never mutates the fields, so constructing a `User` is building the record
and running this check. -/
def userPostInit (u : User) : Except String User :=
  if u.age.any (fun a => a ≤ 0 || a ≥ 150) then
    .error "Age must be between 1 and 149"
  else if u.weight_kg.any (fun w => w ≤ 0) then
    .error "Weight must be greater than 0"
  else if u.email ≠ "" && !(pyIn atChar u.email) then
    .error "Invalid email format"
  else .ok u

/-- The `Admin` dataclass of models.py. -/
structure Admin where
  id : Option Int := none
  name : String := ""
  surname : String := ""
  email : String := ""
  password_hash : Option String := none
  created_at : Option Nat := none
  updated_at : Option Nat := none
  deriving Repr, DecidableEq

/-- The validation of `Admin.__post_init__` (models.py lines 73-76). -/
def adminPostInit (a : Admin) : Except String Admin :=
  if a.email ≠ "" && !(pyIn atChar a.email) then
    .error "Invalid email format"
  else .ok a

/-- The `Exercise` dataclass of models.py. -/
structure Exercise where
  id : Option Int := none
  name : String := ""
  description : Option String := none
  has_reps : Bool := false
  has_weight_kg : Bool := false
  has_duration_s : Bool := false
  has_distance_m : Bool := false
  created_at : Option Nat := none
  updated_at : Option Nat := none
  deriving Repr, DecidableEq

/-- The validation of `Exercise.__post_init__` (models.py lines 121-126).
Python `not self.name.strip()` is `pyStrip name = ""`. -/
def exercisePostInit (e : Exercise) : Except String Exercise :=
  if pyStrip e.name = "" then
    .error "Exercise name cannot be empty"
  else if !(e.has_reps || e.has_weight_kg || e.has_duration_s || e.has_distance_m) then
    .error "Exercise must have at least one parameter type"
  else .ok e

/-- The `Workout` dataclass of models.py, after `__post_init__` has run:
the `comments` field, declared `Optional` in Python, has been normalized to
a list (`None` becomes `[]`), so here it is a plain list. -/
structure Workout where
  id : Option Int := none
  user_id : Int := 0
  name : String := ""
  description : Option String := none
  workout_date : Option Nat := none
  duration_minutes : Option Int := none
  completed : Bool := false
  comments : List Comment := []
  created_at : Option Nat := none
  updated_at : Option Nat := none
  deriving Repr, DecidableEq

/-- Constructing a `Workout`: the dataclass constructor followed by
`Workout.__post_init__` (models.py lines 253-271).  The checks run in source
order; a `None` comment list becomes `[]`, a supplied list is validated
entry by entry. -/
def mkWorkout (id : Option Int) (user_id : Int) (name : String)
    (description : Option String) (workout_date : Option Nat)
    (duration_minutes : Option Int) (completed : Bool)
    (comments : Option (List Comment)) (created_at updated_at : Option Nat) :
    Except String Workout :=
  if pyStrip name = "" then
    .error "Workout name cannot be empty"
  else if user_id ≤ 0 then
    .error "Valid user_id is required"
  else if duration_minutes.any (fun d => d ≤ 0) then
    .error "Duration must be greater than 0"
  else
    match comments with
    | none =>
      .ok ⟨id, user_id, name, description, workout_date, duration_minutes,
           completed, [], created_at, updated_at⟩
    | some cs =>
      if cs.all validComment then
        .ok ⟨id, user_id, name, description, workout_date, duration_minutes,
             completed, cs, created_at, updated_at⟩
      else
        .error "Each comment must have author, message, and timestamp fields"

/-- `Workout.add_comment` (models.py lines 318-328): appends the dict
`{author, message, timestamp: datetime.now().isoformat()}`; the current time
string is passed explicitly.  After `__post_init__` the comment list is never
`None`, so the `if self.comments is None` guard is the identity here. -/
def Workout.add_comment (w : Workout) (author message now : String) : Workout :=
  { w with comments :=
      w.comments ++ [[("author", author), ("message", message), ("timestamp", now)]] }

/-- The `ExerciseSet` dataclass of models.py, after `__post_init__` has
normalized the comment list (see `Workout`). -/
structure ExerciseSet where
  id : Option Int := none
  workout_id : Int := 0
  exercise_id : Int := 0
  set_order : Int := 1
  reps : Option Int := none
  weight_kg : Option ℚ := none
  duration_s : Option Int := none
  distance_m : Option ℚ := none
  rest_seconds : Option Int := none
  completed : Bool := false
  comments : List Comment := []
  created_at : Option Nat := none
  updated_at : Option Nat := none
  deriving Repr, DecidableEq

/-- Constructing an `ExerciseSet`: the dataclass constructor followed by
`ExerciseSet.__post_init__` (models.py lines 361-387), checks in source
order. -/
def mkExerciseSet (id : Option Int) (workout_id exercise_id set_order : Int)
    (reps : Option Int) (weight_kg : Option ℚ) (duration_s : Option Int)
    (distance_m : Option ℚ) (rest_seconds : Option Int) (completed : Bool)
    (comments : Option (List Comment)) (created_at updated_at : Option Nat) :
    Except String ExerciseSet :=
  if workout_id ≤ 0 then
    .error "Valid workout_id is required"
  else if exercise_id ≤ 0 then
    .error "Valid exercise_id is required"
  else if set_order ≤ 0 then
    .error "Set order must be greater than 0"
  else if reps.any (fun r => r ≤ 0) then
    .error "Reps must be greater than 0"
  else if weight_kg.any (fun w => w ≤ 0) then
    .error "Weight must be greater than 0"
  else if duration_s.any (fun d => d ≤ 0) then
    .error "Duration must be greater than 0"
  else if distance_m.any (fun d => d ≤ 0) then
    .error "Distance must be greater than 0"
  else
    match comments with
    | none =>
      .ok ⟨id, workout_id, exercise_id, set_order, reps, weight_kg, duration_s,
           distance_m, rest_seconds, completed, [], created_at, updated_at⟩
    | some cs =>
      if cs.all validComment then
        .ok ⟨id, workout_id, exercise_id, set_order, reps, weight_kg, duration_s,
             distance_m, rest_seconds, completed, cs, created_at, updated_at⟩
      else
        .error "Each comment must have author, message, and timestamp fields"

/-- `ExerciseSet.add_comment` (models.py lines 450-460), identical in shape to
`Workout.add_comment`. -/
def ExerciseSet.add_comment (s : ExerciseSet) (author message now : String) :
    ExerciseSet :=
  { s with comments :=
      s.comments ++ [[("author", author), ("message", message), ("timestamp", now)]] }

/-! ### Database state (database_manager.py, schema from `create_tables`)

Rows mirror the five tables.  `SERIAL` primary keys are per-table counters
starting at 1; `created_at` / `updated_at` default to `CURRENT_TIMESTAMP`
(the clock `now` of the state).  `DECIMAL(p,2)` columns store values rounded
to two decimal places (`dec2`). -/

/-- Rounding of a stored `DECIMAL(p,2)` value to two decimal places.
PostgreSQL rounds numeric values half away from zero, which agrees with
`round` (half up) on the nonnegative values admitted by the CHECK
constraints. -/
def dec2 (q : ℚ) : ℚ := (round (q * 100) : ℤ) / 100

/-- A row of the `users` table. -/
structure UserRow where
  id : Int
  name : String
  surname : String
  email : String
  password_hash : Option String
  age : Option Int
  weight_kg : Option ℚ
  created_at : Nat
  updated_at : Nat
  deriving Repr, DecidableEq

/-- A row of the `admins` table. -/
structure AdminRow where
  id : Int
  name : String
  surname : String
  email : String
  password_hash : Option String
  created_at : Nat
  updated_at : Nat
  deriving Repr, DecidableEq

/-- A row of the `exercises` table.  The `parameters JSONB` column always
holds the four-key dict produced by `Exercise.get_parameters_dict`, so it is
modelled as four booleans. -/
structure ExerciseRow where
  id : Int
  name : String
  description : Option String
  has_reps : Bool
  has_weight_kg : Bool
  has_duration_s : Bool
  has_distance_m : Bool
  created_at : Nat
  updated_at : Nat
  deriving Repr, DecidableEq

/-- A row of the `workouts` table. -/
structure WorkoutRow where
  id : Int
  user_id : Int
  name : String
  description : Option String
  workout_date : Option Nat
  duration_minutes : Option Int
  completed : Bool
  comments : List Comment
  created_at : Nat
  updated_at : Nat
  deriving Repr, DecidableEq

/-- A row of the `exercise_sets` table. -/
structure SetRow where
  id : Int
  workout_id : Int
  exercise_id : Int
  set_order : Int
  reps : Option Int
  weight_kg : Option ℚ
  duration_s : Option Int
  distance_m : Option ℚ
  rest_seconds : Option Int
  completed : Bool
  comments : List Comment
  created_at : Nat
  updated_at : Nat
  deriving Repr, DecidableEq

/-- The database state: the five tables of `create_tables`, the per-table
serial counters, and the current timestamp. -/
structure DB where
  users : List UserRow := []
  admins : List AdminRow := []
  exercises : List ExerciseRow := []
  workouts : List WorkoutRow := []
  exercise_sets : List SetRow := []
  nextUserId : Int := 1
  nextAdminId : Int := 1
  nextExerciseId : Int := 1
  nextWorkoutId : Int := 1
  nextSetId : Int := 1
  now : Nat := 0
  deriving Repr, DecidableEq

/-- Row-to-model conversion performed by `get_user` et al.: `SELECT *`
yields the row dict, `User.from_dict` copies it field for field (the
re-validation `__post_init__` performs is applied at the call sites). -/
def UserRow.toUser (r : UserRow) : User :=
  ⟨some r.id, r.name, r.surname, r.email, r.password_hash, r.age, r.weight_kg,
   some r.created_at, some r.updated_at⟩

/-- Row-to-model conversion for admins (`Admin.from_dict`). -/
def AdminRow.toAdmin (r : AdminRow) : Admin :=
  ⟨some r.id, r.name, r.surname, r.email, r.password_hash,
   some r.created_at, some r.updated_at⟩

/-- Row-to-model conversion for exercises (`Exercise.from_dict`, which reads
the four flags out of the `parameters` dict with default `False`). -/
def ExerciseRow.toExercise (r : ExerciseRow) : Exercise :=
  ⟨some r.id, r.name, r.description, r.has_reps, r.has_weight_kg,
   r.has_duration_s, r.has_distance_m, some r.created_at, some r.updated_at⟩

/-! ### Users CRUD (database_manager.py lines 198-292, 600-612) -/

/-- `DatabaseManager.create_user` (lines 198-224).  `hash` is the external
bcrypt `hash_password`; Python computes a hash only when `password` is truthy
(neither `None` nor `""`).  The INSERT enforces the schema constraints
(UNIQUE email, `age` / `weight_kg` CHECKs); on success the same `user` record
is returned with `id`, `password_hash` and the timestamps overwritten from
the `RETURNING` clause. -/
def create_user (hash : String → String) (db : DB) (user : User)
    (password : Option String) : Except String (User × DB) :=
  let password_hash : Option String :=
    match password with
    | some p => if p = "" then none else some (hash p)
    | none => none
  if db.users.any (fun r => r.email = user.email) then
    .error "duplicate key value violates unique constraint users_email_key"
  else if !(user.age.all (fun a => 0 < a && a < 150)) then
    .error "new row violates check constraint on age"
  else if !((user.weight_kg.map dec2).all (fun w => 0 < w)) then
    .error "new row violates check constraint on weight_kg"
  else
    .ok ({ user with
            id := some db.nextUserId,
            password_hash := password_hash,
            created_at := some db.now,
            updated_at := some db.now },
         { db with
            users := db.users ++
              [{ id := db.nextUserId, name := user.name, surname := user.surname,
                 email := user.email, password_hash := password_hash,
                 age := user.age, weight_kg := user.weight_kg.map dec2,
                 created_at := db.now, updated_at := db.now }],
            nextUserId := db.nextUserId + 1 })

/-- `DatabaseManager.get_user` (lines 226-238): `SELECT * FROM users WHERE
id = %s`, then `User.from_dict`, whose `__post_init__` re-validates the
row. -/
def get_user (db : DB) (user_id : Int) : Except String (Option User) :=
  match db.users.find? (fun r => r.id = user_id) with
  | none => .ok none
  | some r => (userPostInit r.toUser).map some

/-- `DatabaseManager.get_user_by_email` (lines 600-612). -/
def get_user_by_email (db : DB) (email : String) : Except String (Option User) :=
  match db.users.find? (fun r => r.email = email) with
  | none => .ok none
  | some r => (userPostInit r.toUser).map some

/-- `DatabaseManager.update_user` (lines 254-276): the UPDATE touches name,
surname, email, age, weight_kg and sets `updated_at = CURRENT_TIMESTAMP`; a
missing id (no row returned by `RETURNING`) raises the "not found"
`ValueError`; schema constraints apply to the new values. -/
def update_user (db : DB) (user : User) : Except String (User × DB) :=
  if db.users.any (fun r => some r.id = user.id) then
    if db.users.any (fun r => some r.id ≠ user.id && r.email = user.email) then
      .error "duplicate key value violates unique constraint users_email_key"
    else if !(user.age.all (fun a => 0 < a && a < 150)) then
      .error "new row violates check constraint on age"
    else if !((user.weight_kg.map dec2).all (fun w => 0 < w)) then
      .error "new row violates check constraint on weight_kg"
    else
      .ok ({ user with updated_at := some db.now },
           { db with users := db.users.map (fun r =>
               if some r.id = user.id then
                 { r with
                    name := user.name,
                    surname := user.surname,
                    email := user.email,
                    age := user.age,
                    weight_kg := user.weight_kg.map dec2,
                    updated_at := db.now }
               else r) })
  else .error "User with given ID not found"

/-- `DatabaseManager.delete_user` (lines 278-292): `DELETE FROM users WHERE
id = %s`, returning `rowcount > 0`.  The schema's `ON DELETE CASCADE` rules
remove the user's workouts and, transitively, the exercise sets of those
workouts. -/
def delete_user (db : DB) (user_id : Int) : Bool × DB :=
  (db.users.any (fun u => u.id = user_id),
   { db with
       users := db.users.filter (fun u => u.id ≠ user_id),
       workouts := db.workouts.filter (fun w => w.user_id ≠ user_id),
       exercise_sets := db.exercise_sets.filter (fun s =>
         !(db.workouts.any (fun w => w.user_id = user_id && w.id = s.workout_id))) })

/-- `DatabaseManager.authenticate_user` (lines 476-481): email lookup, then
`if user and user.password_hash and verify_password(...)`.  A dataclass is
always truthy; `password_hash` is truthy iff it is neither `None` nor the
empty string.  `verify` is the external bcrypt `verify_password`. -/
def authenticate_user (verify : String → String → Bool) (db : DB)
    (email password : String) : Except String (Option User) :=
  match get_user_by_email db email with
  | .error e => .error e
  | .ok none => .ok none
  | .ok (some user) =>
    match user.password_hash with
    | none => .ok none
    | some h => if h ≠ "" && verify password h then .ok (some user) else .ok none

/-! ### Admins CRUD (database_manager.py lines 504-598, 614-626, 667-672) -/

/-- `DatabaseManager.get_admin_by_email` (lines 614-626). -/
def get_admin_by_email (db : DB) (email : String) : Except String (Option Admin) :=
  match db.admins.find? (fun r => r.email = email) with
  | none => .ok none
  | some r => (adminPostInit r.toAdmin).map some

/-- `DatabaseManager.authenticate_admin` (lines 667-672), identical in shape
to `authenticate_user`. -/
def authenticate_admin (verify : String → String → Bool) (db : DB)
    (email password : String) : Except String (Option Admin) :=
  match get_admin_by_email db email with
  | .error e => .error e
  | .ok none => .ok none
  | .ok (some admin) =>
    match admin.password_hash with
    | none => .ok none
    | some h => if h ≠ "" && verify password h then .ok (some admin) else .ok none

/-- `DatabaseManager.update_admin` (lines 560-582): UPDATE of name, surname,
email with `updated_at = CURRENT_TIMESTAMP`; missing id raises the
"not found" `ValueError`. -/
def update_admin (db : DB) (admin : Admin) : Except String (Admin × DB) :=
  if db.admins.any (fun r => some r.id = admin.id) then
    if db.admins.any (fun r => some r.id ≠ admin.id && r.email = admin.email) then
      .error "duplicate key value violates unique constraint admins_email_key"
    else
      .ok ({ admin with updated_at := some db.now },
           { db with admins := db.admins.map (fun r =>
               if some r.id = admin.id then
                 { r with
                    name := admin.name,
                    surname := admin.surname,
                    email := admin.email,
                    updated_at := db.now }
               else r) })
  else .error "Admin with given ID not found"

/-! ### Exercises CRUD and parameter search
(database_manager.py lines 295-455) -/

/-- The four exercise parameter-flag names that appear as keys of the stored
`parameters` dict. -/
inductive ParamKey
  | has_reps
  | has_weight_kg
  | has_duration_s
  | has_distance_m
  deriving DecidableEq, Repr

/-- JSONB path lookup `parameters->key` on a stored exercise row. -/
def ExerciseRow.param (r : ExerciseRow) : ParamKey → Bool
  | .has_reps => r.has_reps
  | .has_weight_kg => r.has_weight_kg
  | .has_duration_s => r.has_duration_s
  | .has_distance_m => r.has_distance_m

/-- Sorting used by the `ORDER BY name` clauses of the exercise queries. -/
def sortByName (l : List ExerciseRow) : List ExerciseRow :=
  l.mergeSort (fun a b => a.name ≤ b.name)

/-- Mapping of fetched rows through `Exercise.from_dict`, whose
`__post_init__` re-validates each row; the first invalid row aborts the
call with its `ValueError`. -/
def rowsToExercises : List ExerciseRow → Except String (List Exercise)
  | [] => .ok []
  | r :: t =>
    match exercisePostInit r.toExercise with
    | .error msg => .error msg
    | .ok e =>
      match rowsToExercises t with
      | .error msg => .error msg
      | .ok es => .ok (e :: es)

/-- `DatabaseManager.get_all_exercises` (lines 333-345): `SELECT * FROM
exercises ORDER BY name`. -/
def get_all_exercises (db : DB) : Except String (List Exercise) :=
  rowsToExercises (sortByName db.exercises)

/-- `DatabaseManager.update_exercise` (lines 347-370): UPDATE of name,
description and the `parameters` dict with `updated_at = CURRENT_TIMESTAMP`;
missing id raises the "not found" `ValueError`; the UNIQUE constraint on
`name` applies to the new value. -/
def update_exercise (db : DB) (exercise : Exercise) : Except String (Exercise × DB) :=
  if db.exercises.any (fun r => some r.id = exercise.id) then
    if db.exercises.any (fun r => some r.id ≠ exercise.id && r.name = exercise.name) then
      .error "duplicate key value violates unique constraint exercises_name_key"
    else
      .ok ({ exercise with updated_at := some db.now },
           { db with exercises := db.exercises.map (fun r =>
               if some r.id = exercise.id then
                 { r with
                    name := exercise.name,
                    description := exercise.description,
                    has_reps := exercise.has_reps,
                    has_weight_kg := exercise.has_weight_kg,
                    has_duration_s := exercise.has_duration_s,
                    has_distance_m := exercise.has_distance_m,
                    updated_at := db.now }
               else r) })
  else .error "Exercise with given ID not found"

/-- The conjunctive WHERE clause assembled by
`search_exercises_by_parameters` for boolean filter values: one
`parameters->key = value` condition per mapping entry, joined with AND. -/
def matchesFilters (filters : List (ParamKey × Bool)) (r : ExerciseRow) : Bool :=
  filters.all (fun kv => r.param kv.1 = kv.2)

/-- `DatabaseManager.search_exercises_by_parameters` (lines 407-437),
restricted to boolean filter values on the stored flag keys (the only filters
the application and the claims use).  An empty mapping produces no
conditions, and the code falls back to `get_all_exercises`; otherwise the
conjunctive filter runs with `ORDER BY name`. -/
def search_exercises_by_parameters (db : DB) (filters : List (ParamKey × Bool)) :
    Except String (List Exercise) :=
  if filters.isEmpty then
    get_all_exercises db
  else
    rowsToExercises (sortByName (db.exercises.filter (matchesFilters filters)))

/-! ### Workouts and aggregation queries
(database_manager.py lines 787-800, 967-1026) -/

/-- `DatabaseManager.delete_workout` (lines 787-800): `DELETE FROM workouts
WHERE id = %s`, returning `rowcount > 0`; the `ON DELETE CASCADE` rule on
`exercise_sets.workout_id` removes the workout's sets. -/
def delete_workout (db : DB) (workout_id : Int) : Bool × DB :=
  (db.workouts.any (fun w => w.id = workout_id),
   { db with
       workouts := db.workouts.filter (fun w => w.id ≠ workout_id),
       exercise_sets := db.exercise_sets.filter (fun s => s.workout_id ≠ workout_id) })

/-- The dict returned by `get_workout_progress` on the success path. -/
structure WorkoutProgress where
  total_sets : Nat
  completed_sets : Nat
  completion_percentage : ℚ
  is_workout_complete : Bool
  deriving Repr, DecidableEq

/-- `DatabaseManager.get_workout_progress` (lines 967-995).  The aggregate
query always yields exactly one row (`COUNT` with no `GROUP BY`), so the
Python fallback `return {total_sets: 0, ...}` at line 992 is unreachable.
When the workout has no sets, `COUNT(*) = 0` and the select-list expression
`COUNT(CASE ...) * 100.0 / COUNT(*)` raises the PostgreSQL division-by-zero
error (SQLSTATE 22012), which psycopg2 surfaces as an exception that the
method logs and re-raises — hence `.error` in that case.  Otherwise
`ROUND(..., 2)` is `dec2` and the method builds the dict; the Python guard
`float(p) if p else 0.0` maps `0.00` to `0.0`, numerically the identity. -/
def get_workout_progress (db : DB) (workout_id : Int) :
    Except String WorkoutProgress :=
  let rows := db.exercise_sets.filter (fun s => s.workout_id = workout_id)
  let total := rows.length
  let completedSets := (rows.filter (fun s => s.completed)).length
  if total = 0 then
    .error "division by zero"
  else
    .ok { total_sets := total,
          completed_sets := completedSets,
          completion_percentage := dec2 ((completedSets : ℚ) * 100 / (total : ℚ)),
          is_workout_complete := completedSets == total && total != 0 }

/-- The dict returned by `get_user_workout_stats` on the success path. -/
structure UserWorkoutStats where
  total_workouts : Nat
  completed_workouts : Nat
  pending_workouts : Nat
  completion_rate : ℚ
  deriving Repr, DecidableEq

/-- `DatabaseManager.get_user_workout_stats` (lines 997-1026), same
aggregate pattern as `get_workout_progress`: a user with no workouts makes
the `completion_rate` expression divide by zero and the call raises. -/
def get_user_workout_stats (db : DB) (user_id : Int) :
    Except String UserWorkoutStats :=
  let rows := db.workouts.filter (fun w => w.user_id = user_id)
  let total := rows.length
  let comp := (rows.filter (fun w => w.completed)).length
  if total = 0 then
    .error "division by zero"
  else
    .ok { total_workouts := total,
          completed_workouts := comp,
          pending_workouts := (rows.filter (fun w => !w.completed)).length,
          completion_rate := dec2 ((comp : ℚ) * 100 / (total : ℚ)) }

/-! ### Concrete states used by witness and counterexample theorems -/

/-- A stored user row whose bcrypt hash is the opaque string "H". -/
def witnessAuthRow : UserRow :=
  { id := 1, name := "Jan", surname := "N", email := "jan@x.cz",
    password_hash := some "H", age := some 30, weight_kg := none,
    created_at := 0, updated_at := 0 }

/-- A one-user store for the authentication witness. -/
def witnessAuthDB : DB :=
  { users := [witnessAuthRow], nextUserId := 2 }

/-- The record `authenticate_user` returns for `witnessAuthRow`. -/
def witnessAuthUser : User :=
  witnessAuthRow.toUser

/-- A stored exercise row with the weight flag set. -/
def witnessExRow1 : ExerciseRow :=
  { id := 1, name := "Bench", description := none, has_reps := true,
    has_weight_kg := true, has_duration_s := false, has_distance_m := false,
    created_at := 0, updated_at := 0 }

/-- A stored exercise row without the weight flag. -/
def witnessExRow2 : ExerciseRow :=
  { id := 2, name := "Run", description := none, has_reps := false,
    has_weight_kg := false, has_duration_s := true, has_distance_m := true,
    created_at := 0, updated_at := 0 }

/-- A two-exercise store for the parameter-filter witness. -/
def witnessExDB : DB :=
  { exercises := [witnessExRow1, witnessExRow2], nextExerciseId := 3 }

/-- A stored workout row used by the aggregation examples. -/
def progressWorkoutRow : WorkoutRow :=
  { id := 1, user_id := 1, name := "Day 1", description := none,
    workout_date := none, duration_minutes := none, completed := false,
    comments := [], created_at := 0, updated_at := 0 }

/-- A store holding workout 1 with zero exercise sets. -/
def zeroSetsDB : DB :=
  { workouts := [progressWorkoutRow], nextWorkoutId := 2 }

/-- An exercise-set row of workout 1 (set `i`, completed flag `c`). -/
def progressSetRow (i : Int) (c : Bool) : SetRow :=
  { id := i, workout_id := 1, exercise_id := 1, set_order := i,
    reps := some 10, weight_kg := none, duration_s := none, distance_m := none,
    rest_seconds := none, completed := c, comments := [],
    created_at := 0, updated_at := 0 }

/-- A store whose workout 1 has four sets, three of them completed. -/
def progressDB : DB :=
  { workouts := [progressWorkoutRow],
    exercise_sets := [progressSetRow 1 true, progressSetRow 2 true,
                      progressSetRow 3 true, progressSetRow 4 false],
    nextWorkoutId := 2, nextSetId := 5 }

/-- A valid user record carrying a pre-set `password_hash`, created with no
`password` argument: input for the round-trip counterexample. -/
def cexUser : User :=
  { name := "Jan", email := "jan@x.cz", password_hash := some "imported-hash" }

/-- What `create_user` returns for `cexUser` on the empty store: the
pre-set hash has been overwritten by `None`. -/
def cexCreated : User :=
  { id := some 1, name := "Jan", email := "jan@x.cz", password_hash := none,
    created_at := some 0, updated_at := some 0 }

/-- The stored row for `cexUser`. -/
def cexRow : UserRow :=
  { id := 1, name := "Jan", surname := "", email := "jan@x.cz",
    password_hash := none, age := none, weight_kg := none,
    created_at := 0, updated_at := 0 }

/-- The store after creating `cexUser`. -/
def cexDB2 : DB :=
  { users := [cexRow], nextUserId := 2 }

/-- A valid user record without a pre-set hash, for the round-trip
witness. -/
def rtUser : User :=
  { name := "Eva", email := "eva@x.cz" }

/-- The record `create_user` returns for `rtUser` with password "pw" under
the identity hash function. -/
def rtCreated : User :=
  { id := some 1, name := "Eva", email := "eva@x.cz",
    password_hash := some "pw", created_at := some 0, updated_at := some 0 }

/-- The stored row for `rtUser`. -/
def rtRow : UserRow :=
  { id := 1, name := "Eva", surname := "", email := "eva@x.cz",
    password_hash := some "pw", age := none, weight_kg := none,
    created_at := 0, updated_at := 0 }

/-- The store after creating `rtUser`. -/
def rtDB2 : DB :=
  { users := [rtRow], nextUserId := 2 }

/-! ### Claim C4: user age validation -/

/-- C4: for every integer age `a` with `1 ≤ a ≤ 149`, constructing a `User`
with `age = a` (remaining fields default) succeeds, and for every `a ≤ 0` or
`a ≥ 150` it raises a validation error: construction returns `.ok` exactly
on the accepted range. -/
theorem user_age_validation (a : Int) :
    (∃ u, userPostInit { age := some a } = .ok u) ↔ (1 ≤ a ∧ a ≤ 149) := by
  by_cases h1 : a ≤ 0 <;> by_cases h2 : a ≥ 150 <;>
    simp [userPostInit, pyIn, h1, h2] <;> omega

/-! ### Claim C5: exercise parameter-flag validation -/

/-- C5: constructing an `Exercise` whose four parameter flags are all false
raises a validation error (whatever the other fields), and construction with
a non-blank name and at least one flag true succeeds. -/
theorem exercise_flag_validation :
    (∀ e : Exercise, e.has_reps = false → e.has_weight_kg = false →
       e.has_duration_s = false → e.has_distance_m = false →
       ∀ u, exercisePostInit e ≠ .ok u) ∧
    (∀ e : Exercise, pyStrip e.name ≠ "" →
       (e.has_reps || e.has_weight_kg || e.has_duration_s || e.has_distance_m) = true →
       exercisePostInit e = .ok e) := by
  constructor
  · intro e h1 h2 h3 h4 u
    by_cases hn : pyStrip e.name = "" <;> simp [exercisePostInit, hn, h1, h2, h3, h4]
  · intro e hn hf
    simp [exercisePostInit, hn, hf]

/-- Witness for C5 at concrete exercises: the all-false construction fails
and a one-flag construction succeeds. -/
theorem exercise_flag_validation_witness :
    exercisePostInit { name := "Squat" } ≠ .ok { name := "Squat" } ∧
    exercisePostInit { name := "Squat", has_reps := true } =
      .ok { name := "Squat", has_reps := true } := by
  constructor
  · exact exercise_flag_validation.1 { name := "Squat" } rfl rfl rfl rfl { name := "Squat" }
  · exact exercise_flag_validation.2 { name := "Squat", has_reps := true }
      (by decide) (by decide)

/-! ### Claim C10: the email check is skipped for empty emails -/

/-- C10: constructing a `User` or `Admin` with an empty email string
succeeds without a validation error (provided, for `User`, the independent
age and weight checks pass): the "email contains `'@'`" check only fires on
a non-empty email. -/
theorem empty_email_accepted :
    (∀ u : User, u.email = "" →
       u.age.any (fun a => a ≤ 0 || a ≥ 150) = false →
       u.weight_kg.any (fun w => w ≤ 0) = false →
       userPostInit u = .ok u) ∧
    (∀ a : Admin, a.email = "" → adminPostInit a = .ok a) := by
  constructor
  · intro u he ha hw
    simp [userPostInit, he, ha, hw]
  · intro a he
    simp [adminPostInit, he]

/-- Witness for C10: the all-default `User` and `Admin` (empty email) are
accepted. -/
theorem empty_email_accepted_witness :
    userPostInit {} = .ok {} ∧ adminPostInit {} = .ok {} := by
  constructor
  · exact empty_email_accepted.1 {} rfl rfl rfl
  · exact empty_email_accepted.2 {} rfl

/-! ### Claim C2: authentication failure indistinguishability -/

/-- C2: for user and admin authentication alike, a missing email and a wrong
password both produce the same absent result `.ok none`, and authentication
returns a record exactly when the email lookup finds it and its stored hash
(present and non-empty, per the Python truthiness test) verifies the
password. -/
theorem authentication_indistinguishable (verify : String → String → Bool)
    (db : DB) (email password : String) :
    (get_user_by_email db email = .ok none →
       authenticate_user verify db email password = .ok none) ∧
    (∀ u h, get_user_by_email db email = .ok (some u) → u.password_hash = some h →
       verify password h = false →
       authenticate_user verify db email password = .ok none) ∧
    (∀ u, authenticate_user verify db email password = .ok (some u) ↔
       get_user_by_email db email = .ok (some u) ∧
       ∃ h, u.password_hash = some h ∧ h ≠ "" ∧ verify password h = true) ∧
    (get_admin_by_email db email = .ok none →
       authenticate_admin verify db email password = .ok none) ∧
    (∀ a h, get_admin_by_email db email = .ok (some a) → a.password_hash = some h →
       verify password h = false →
       authenticate_admin verify db email password = .ok none) ∧
    (∀ a, authenticate_admin verify db email password = .ok (some a) ↔
       get_admin_by_email db email = .ok (some a) ∧
       ∃ h, a.password_hash = some h ∧ h ≠ "" ∧ verify password h = true) := by
  refine ⟨?_, ?_, ?_, ?_, ?_, ?_⟩
  · intro h
    simp [authenticate_user, h]
  · intro u h hu hh hv
    cases hph : u.password_hash with
    | none => simp [authenticate_user, hu, hph]
    | some h0 =>
      rw [hph] at hh
      cases hh
      simp [authenticate_user, hu, hph, hv]
  · intro u
    constructor
    · intro hok
      cases hlk : get_user_by_email db email with
      | error e => simp [authenticate_user, hlk] at hok
      | ok o =>
        cases o with
        | none => simp [authenticate_user, hlk] at hok
        | some u0 =>
          cases hph : u0.password_hash with
          | none => simp [authenticate_user, hlk, hph] at hok
          | some h0 =>
            by_cases hc : h0 ≠ "" ∧ verify password h0 = true
            · simp only [authenticate_user, hlk, hph] at hok
              rw [if_pos (by simp [hc.1, hc.2])] at hok
              cases hok
              exact ⟨rfl, h0, hph, hc.1, hc.2⟩
            · simp only [authenticate_user, hlk, hph] at hok
              rw [if_neg (by simpa [Decidable.not_and_iff_or_not] using hc)] at hok
              cases hok
    · rintro ⟨hlk, h0, hph, hne, hv⟩
      simp [authenticate_user, hlk, hph, hne, hv]
  · intro h
    simp [authenticate_admin, h]
  · intro a h ha hh hv
    cases hph : a.password_hash with
    | none => simp [authenticate_admin, ha, hph]
    | some h0 =>
      rw [hph] at hh
      cases hh
      simp [authenticate_admin, ha, hph, hv]
  · intro a
    constructor
    · intro hok
      cases hlk : get_admin_by_email db email with
      | error e => simp [authenticate_admin, hlk] at hok
      | ok o =>
        cases o with
        | none => simp [authenticate_admin, hlk] at hok
        | some a0 =>
          cases hph : a0.password_hash with
          | none => simp [authenticate_admin, hlk, hph] at hok
          | some h0 =>
            by_cases hc : h0 ≠ "" ∧ verify password h0 = true
            · simp only [authenticate_admin, hlk, hph] at hok
              rw [if_pos (by simp [hc.1, hc.2])] at hok
              cases hok
              exact ⟨rfl, h0, hph, hc.1, hc.2⟩
            · simp only [authenticate_admin, hlk, hph] at hok
              rw [if_neg (by simpa [Decidable.not_and_iff_or_not] using hc)] at hok
              cases hok
    · rintro ⟨hlk, h0, hph, hne, hv⟩
      simp [authenticate_admin, hlk, hph, hne, hv]

/-- Witness for C2 at a concrete store: one user whose stored hash only
verifies the password "right".  Wrong password and unknown email both yield
`.ok none`; the correct pair yields the record. -/
theorem authentication_indistinguishable_witness :
    authenticate_user (fun p h => p = "right" && h = "H") witnessAuthDB
        "ghost@x.cz" "right" = .ok none ∧
    authenticate_user (fun p h => p = "right" && h = "H") witnessAuthDB
        "jan@x.cz" "wrong" = .ok none ∧
    authenticate_user (fun p h => p = "right" && h = "H") witnessAuthDB
        "jan@x.cz" "right" = .ok (some witnessAuthUser) := by
  refine ⟨?_, ?_, ?_⟩
  · exact (authentication_indistinguishable _ _ _ _).1 rfl
  · exact (authentication_indistinguishable _ _ _ _).2.1 witnessAuthUser "H"
      rfl rfl rfl
  · exact ((authentication_indistinguishable _ _ _ _).2.2.1 witnessAuthUser).2
      ⟨rfl, "H", rfl, by decide, rfl⟩

/-! ### Claim C9: mandatory comment keys and append-only comment lists -/

/-- C9: constructing a `Workout` or `ExerciseSet` fails whenever some
supplied comment lacks one of the keys `author`, `message`, `timestamp`; a
successful construction keeps exactly the supplied comments (empty when the
input list was `None`), all of which carry the three keys; and `add_comment`
appends exactly one three-key comment at the end, leaving the previous
comments unchanged and preserving the all-keys invariant. -/
theorem comment_keys_invariant :
    (∀ id uid name descr wd dm c cs ca ua,
       cs.all validComment = false →
       ∀ w, mkWorkout id uid name descr wd dm c (some cs) ca ua ≠ .ok w) ∧
    (∀ id uid name descr wd dm c cso ca ua w,
       mkWorkout id uid name descr wd dm c cso ca ua = .ok w →
       w.comments.all validComment = true ∧ w.comments = cso.getD []) ∧
    (∀ (w : Workout) (author message now : String),
       (w.add_comment author message now).comments =
         w.comments ++ [[("author", author), ("message", message), ("timestamp", now)]] ∧
       validComment [("author", author), ("message", message), ("timestamp", now)] = true ∧
       (w.comments.all validComment = true →
         (w.add_comment author message now).comments.all validComment = true)) ∧
    (∀ id wid eid so reps wkg ds dm rs c cs ca ua,
       cs.all validComment = false →
       ∀ s, mkExerciseSet id wid eid so reps wkg ds dm rs c (some cs) ca ua ≠ .ok s) ∧
    (∀ id wid eid so reps wkg ds dm rs c cso ca ua s,
       mkExerciseSet id wid eid so reps wkg ds dm rs c cso ca ua = .ok s →
       s.comments.all validComment = true ∧ s.comments = cso.getD []) ∧
    (∀ (s : ExerciseSet) (author message now : String),
       (s.add_comment author message now).comments =
         s.comments ++ [[("author", author), ("message", message), ("timestamp", now)]] ∧
       validComment [("author", author), ("message", message), ("timestamp", now)] = true ∧
       (s.comments.all validComment = true →
         (s.add_comment author message now).comments.all validComment = true)) := by
  refine ⟨?_, ?_, ?_, ?_, ?_, ?_⟩
  · intro id uid name descr wd dm c cs ca ua hbad w hok
    simp only [mkWorkout] at hok
    repeat' split at hok
    all_goals cases hok
    all_goals simp_all
  · intro id uid name descr wd dm c cso ca ua w hok
    cases cso with
    | none =>
      simp only [mkWorkout] at hok
      repeat' split at hok
      all_goals cases hok
      all_goals simp
    | some cs =>
      simp only [mkWorkout] at hok
      repeat' split at hok
      all_goals cases hok
      all_goals simp_all
  · intro w author message now
    refine ⟨rfl, by simp [validComment, commentHasKey], ?_⟩
    intro hall
    simp [Workout.add_comment, List.all_append, hall, validComment, commentHasKey]
  · intro id wid eid so reps wkg ds dm rs c cs ca ua hbad s hok
    simp only [mkExerciseSet] at hok
    repeat' split at hok
    all_goals cases hok
    all_goals simp_all
  · intro id wid eid so reps wkg ds dm rs c cso ca ua s hok
    cases cso with
    | none =>
      simp only [mkExerciseSet] at hok
      repeat' split at hok
      all_goals cases hok
      all_goals simp
    | some cs =>
      simp only [mkExerciseSet] at hok
      repeat' split at hok
      all_goals cases hok
      all_goals simp_all
  · intro s author message now
    refine ⟨rfl, by simp [validComment, commentHasKey], ?_⟩
    intro hall
    simp [ExerciseSet.add_comment, List.all_append, hall, validComment, commentHasKey]

/-- Witness for C9: a one-key comment is rejected at construction, a valid
construction keeps its comments, and `add_comment` on a fresh workout
appends the three-key comment. -/
theorem comment_keys_invariant_witness :
    mkWorkout none 1 "Legs" none none none false
        (some [[("author", "kl")]]) none none ≠
      .ok { user_id := 1, name := "Legs", comments := [[("author", "kl")]] } ∧
    ((({ user_id := 1, name := "Legs" } : Workout).add_comment
        "kl" "go" "t0").comments =
      [[("author", "kl"), ("message", "go"), ("timestamp", "t0")]]) := by
  constructor
  · exact comment_keys_invariant.1 none 1 "Legs" none none none false
      [[("author", "kl")]] none none (by decide)
      { user_id := 1, name := "Legs", comments := [[("author", "kl")]] }
  · exact (comment_keys_invariant.2.2.1
      { user_id := 1, name := "Legs" } "kl" "go" "t0").1

/-! ### Claim C7: update on a missing id faults explicitly -/

/-- C7: when no stored row matches the record's id, `update_user`,
`update_exercise` and `update_admin` raise the explicit "not found" fault
rather than silently no-op; when a row matches (and the new values pass the
schema constraints, the storage-fault case the spec treats separately), the
update succeeds and returns the record with `updated_at` refreshed to the
current timestamp. -/
theorem update_missing_id_faults (db : DB) :
    (∀ user : User, db.users.all (fun r => some r.id ≠ user.id) = true →
       update_user db user = .error "User with given ID not found") ∧
    (∀ exercise : Exercise, db.exercises.all (fun r => some r.id ≠ exercise.id) = true →
       update_exercise db exercise = .error "Exercise with given ID not found") ∧
    (∀ admin : Admin, db.admins.all (fun r => some r.id ≠ admin.id) = true →
       update_admin db admin = .error "Admin with given ID not found") ∧
    (∀ user : User, db.users.any (fun r => some r.id = user.id) = true →
       db.users.any (fun r => some r.id ≠ user.id && r.email = user.email) = false →
       user.age.all (fun a => 0 < a && a < 150) = true →
       (user.weight_kg.map dec2).all (fun w => 0 < w) = true →
       ∃ db2, update_user db user = .ok ({ user with updated_at := some db.now }, db2)) ∧
    (∀ exercise : Exercise, db.exercises.any (fun r => some r.id = exercise.id) = true →
       db.exercises.any (fun r => some r.id ≠ exercise.id && r.name = exercise.name) = false →
       ∃ db2, update_exercise db exercise =
         .ok ({ exercise with updated_at := some db.now }, db2)) ∧
    (∀ admin : Admin, db.admins.any (fun r => some r.id = admin.id) = true →
       db.admins.any (fun r => some r.id ≠ admin.id && r.email = admin.email) = false →
       ∃ db2, update_admin db admin =
         .ok ({ admin with updated_at := some db.now }, db2)) := by
  refine ⟨?_, ?_, ?_, ?_, ?_, ?_⟩
  · intro user hmiss
    have : db.users.any (fun r => some r.id = user.id) = false := by
      simp only [List.all_eq_true] at hmiss
      simp only [List.any_eq_false]
      intro r hr
      simpa using hmiss r hr
    simp [update_user, this]
  · intro exercise hmiss
    have : db.exercises.any (fun r => some r.id = exercise.id) = false := by
      simp only [List.all_eq_true] at hmiss
      simp only [List.any_eq_false]
      intro r hr
      simpa using hmiss r hr
    simp [update_exercise, this]
  · intro admin hmiss
    have : db.admins.any (fun r => some r.id = admin.id) = false := by
      simp only [List.all_eq_true] at hmiss
      simp only [List.any_eq_false]
      intro r hr
      simpa using hmiss r hr
    simp [update_admin, this]
  · intro user hhit hdup hage hw
    have hhit2 : ∃ x ∈ db.users, some x.id = user.id := by simpa using hhit
    have hdup2 : ¬∃ x ∈ db.users, ¬some x.id = user.id ∧ x.email = user.email := by
      rintro ⟨x, hx, hne, he⟩
      have hx2 : (db.users.any fun r =>
          decide (some r.id ≠ user.id) && decide (r.email = user.email)) = true :=
        List.any_eq_true.mpr ⟨x, hx, by simp [hne, he]⟩
      rw [hdup] at hx2
      exact Bool.noConfusion hx2
    refine ⟨{ db with users := db.users.map (fun r =>
        if some r.id = user.id then
          { r with
             name := user.name,
             surname := user.surname,
             email := user.email,
             age := user.age,
             weight_kg := user.weight_kg.map dec2,
             updated_at := db.now }
        else r) }, ?_⟩
    simp [update_user, hhit, hhit2, hage, hw, hdup2]
  · intro exercise hhit hdup
    have hhit2 : ∃ x ∈ db.exercises, some x.id = exercise.id := by simpa using hhit
    have hdup2 : ¬∃ x ∈ db.exercises, ¬some x.id = exercise.id ∧ x.name = exercise.name := by
      rintro ⟨x, hx, hne, he⟩
      have hx2 : (db.exercises.any fun r =>
          decide (some r.id ≠ exercise.id) && decide (r.name = exercise.name)) = true :=
        List.any_eq_true.mpr ⟨x, hx, by simp [hne, he]⟩
      rw [hdup] at hx2
      exact Bool.noConfusion hx2
    refine ⟨{ db with exercises := db.exercises.map (fun r =>
        if some r.id = exercise.id then
          { r with
             name := exercise.name,
             description := exercise.description,
             has_reps := exercise.has_reps,
             has_weight_kg := exercise.has_weight_kg,
             has_duration_s := exercise.has_duration_s,
             has_distance_m := exercise.has_distance_m,
             updated_at := db.now }
        else r) }, ?_⟩
    simp [update_exercise, hhit, hhit2, hdup2]
  · intro admin hhit hdup
    have hhit2 : ∃ x ∈ db.admins, some x.id = admin.id := by simpa using hhit
    have hdup2 : ¬∃ x ∈ db.admins, ¬some x.id = admin.id ∧ x.email = admin.email := by
      rintro ⟨x, hx, hne, he⟩
      have hx2 : (db.admins.any fun r =>
          decide (some r.id ≠ admin.id) && decide (r.email = admin.email)) = true :=
        List.any_eq_true.mpr ⟨x, hx, by simp [hne, he]⟩
      rw [hdup] at hx2
      exact Bool.noConfusion hx2
    refine ⟨{ db with admins := db.admins.map (fun r =>
        if some r.id = admin.id then
          { r with
             name := admin.name,
             surname := admin.surname,
             email := admin.email,
             updated_at := db.now }
        else r) }, ?_⟩
    simp [update_admin, hhit, hhit2, hdup2]

/-- Witness for C7 on the concrete one-user store: updating id 99 faults
with "not found", updating the present id 1 succeeds with `updated_at`
refreshed to the store's clock. -/
theorem update_missing_id_faults_witness :
    update_user witnessAuthDB { id := some 99, name := "X", email := "x@y.cz" } =
      .error "User with given ID not found" ∧
    ∃ db2, update_user witnessAuthDB
        { id := some 1, name := "Jan", email := "jan@x.cz" } =
      .ok ({ id := some 1, name := "Jan", email := "jan@x.cz",
             updated_at := some 0 }, db2) := by
  constructor
  · exact (update_missing_id_faults witnessAuthDB).1
      { id := some 99, name := "X", email := "x@y.cz" } (by decide)
  · exact (update_missing_id_faults witnessAuthDB).2.2.2.1
      { id := some 1, name := "Jan", email := "jan@x.cz" }
      (by decide) (by decide) (by decide) (by decide)

/-! ### Claim C8: cascade deletes -/

/-- C8: deleting a workout removes the workout row and exactly the exercise
sets referencing it; deleting a user removes the user, every workout owned
by the user, and transitively every exercise set of those workouts; each
delete returns `true` exactly when the targeted row existed. -/
theorem cascade_delete (db : DB) (wid uid : Int) :
    ((delete_workout db wid).1 = true ↔ ∃ w ∈ db.workouts, w.id = wid) ∧
    (∀ w, w ∈ (delete_workout db wid).2.workouts ↔ w ∈ db.workouts ∧ w.id ≠ wid) ∧
    (∀ s, s ∈ (delete_workout db wid).2.exercise_sets ↔
       s ∈ db.exercise_sets ∧ s.workout_id ≠ wid) ∧
    ((delete_user db uid).1 = true ↔ ∃ u ∈ db.users, u.id = uid) ∧
    (∀ u, u ∈ (delete_user db uid).2.users ↔ u ∈ db.users ∧ u.id ≠ uid) ∧
    (∀ w, w ∈ (delete_user db uid).2.workouts ↔ w ∈ db.workouts ∧ w.user_id ≠ uid) ∧
    (∀ s, s ∈ (delete_user db uid).2.exercise_sets ↔
       s ∈ db.exercise_sets ∧ ∀ w ∈ db.workouts, w.user_id = uid → w.id ≠ s.workout_id) := by
  refine ⟨?_, ?_, ?_, ?_, ?_, ?_, ?_⟩
  · simp [delete_workout, List.any_eq_true]
  · intro w
    simp [delete_workout, List.mem_filter]
  · intro s
    simp [delete_workout, List.mem_filter]
  · simp [delete_user, List.any_eq_true]
  · intro u
    simp [delete_user, List.mem_filter]
  · intro w
    simp [delete_user, List.mem_filter]
  · intro s
    simp only [delete_user, List.mem_filter]
    constructor
    · rintro ⟨hs, hna⟩
      refine ⟨hs, ?_⟩
      intro w hw huid heq
      simp only [Bool.not_eq_eq_eq_not, Bool.not_true, List.any_eq_false,
        Bool.not_eq_true] at hna
      have := hna w hw
      simp [huid, heq] at this
    · rintro ⟨hs, hfa⟩
      refine ⟨hs, ?_⟩
      simp only [Bool.not_eq_eq_eq_not, Bool.not_true, List.any_eq_false,
        Bool.not_eq_true]
      intro w hw
      by_cases hu : w.user_id = uid
      · simp [hu, hfa w hw hu]
      · simp [hu]

/-- Witness for C8 at the concrete four-set store: deleting workout 1
returns `true` (the row existed) and removes every exercise set referencing
it. -/
theorem cascade_delete_witness :
    (delete_workout progressDB 1).1 = true ∧
    (delete_workout progressDB 1).2.exercise_sets = [] := by
  constructor
  · exact ((cascade_delete progressDB 1 1).1).mpr
      ⟨progressWorkoutRow, by simp [progressDB], rfl⟩
  · rfl

/-! ### Claim C6: conjunctive parameter-flag filtering -/

/-- Membership is invariant under the `ORDER BY name` sort. -/
theorem mem_sortByName {r : ExerciseRow} {l : List ExerciseRow} :
    r ∈ sortByName l ↔ r ∈ l := by
  simp [sortByName, List.mem_mergeSort]

/-- On a list of rows that all re-validate, `rowsToExercises` succeeds with
the field-for-field conversions. -/
theorem rowsToExercises_ok {l : List ExerciseRow}
    (h : ∀ r ∈ l, exercisePostInit r.toExercise = .ok r.toExercise) :
    rowsToExercises l = .ok (l.map ExerciseRow.toExercise) := by
  induction l with
  | nil => rfl
  | cons r t ih =>
    have hr := h r (by simp)
    have ht : ∀ x ∈ t, exercisePostInit x.toExercise = .ok x.toExercise :=
      fun x hx => h x (by simp [hx])
    simp [rowsToExercises, hr, ih ht]

/-- C6: on a store whose exercise rows re-validate, filtering by a mapping
of parameter-flag names to booleans returns exactly the exercises whose
stored flags equal every requested value; the empty mapping returns all
exercises; filtering by `has_weight_kg = true` returns exactly the
exercises with that flag set. -/
theorem search_by_parameters_exact (db : DB)
    (hdb : ∀ r ∈ db.exercises, exercisePostInit r.toExercise = .ok r.toExercise) :
    (∀ filters, ∃ L, search_exercises_by_parameters db filters = .ok L ∧
       ∀ e, e ∈ L ↔ ∃ r ∈ db.exercises, matchesFilters filters r = true ∧
         e = r.toExercise) ∧
    (∃ L, search_exercises_by_parameters db [] = .ok L ∧
       ∀ e, e ∈ L ↔ ∃ r ∈ db.exercises, e = r.toExercise) ∧
    (∃ L, search_exercises_by_parameters db [(ParamKey.has_weight_kg, true)] = .ok L ∧
       ∀ e, e ∈ L ↔ ∃ r ∈ db.exercises, r.has_weight_kg = true ∧ e = r.toExercise) := by
  have main : ∀ filters : List (ParamKey × Bool), ∃ L,
      search_exercises_by_parameters db filters = .ok L ∧
      ∀ e, e ∈ L ↔ ∃ r ∈ db.exercises, matchesFilters filters r = true ∧
        e = r.toExercise := by
    intro filters
    by_cases hemp : filters.isEmpty
    · refine ⟨(sortByName db.exercises).map ExerciseRow.toExercise, ?_, ?_⟩
      · simp only [search_exercises_by_parameters, hemp, if_true, get_all_exercises]
        exact rowsToExercises_ok (fun r hr => hdb r (mem_sortByName.mp hr))
      · intro e
        have hfe : filters = [] := List.isEmpty_iff.mp hemp
        subst hfe
        rw [List.mem_map]
        constructor
        · rintro ⟨r, hr, he⟩
          exact ⟨r, mem_sortByName.mp hr, rfl, he.symm⟩
        · rintro ⟨r, hr, _, he⟩
          exact ⟨r, mem_sortByName.mpr hr, he.symm⟩
    · refine ⟨(sortByName (db.exercises.filter (matchesFilters filters))).map
        ExerciseRow.toExercise, ?_, ?_⟩
      · simp only [search_exercises_by_parameters, hemp, if_false]
        exact rowsToExercises_ok (fun r hr =>
          hdb r (List.mem_filter.mp (mem_sortByName.mp hr)).1)
      · intro e
        rw [List.mem_map]
        constructor
        · rintro ⟨r, hr, he⟩
          have hr2 := List.mem_filter.mp (mem_sortByName.mp hr)
          exact ⟨r, hr2.1, hr2.2, he.symm⟩
        · rintro ⟨r, hr, hm, he⟩
          exact ⟨r, mem_sortByName.mpr (List.mem_filter.mpr ⟨hr, hm⟩), he.symm⟩
  refine ⟨main, ?_, ?_⟩
  · obtain ⟨L, hs, hm⟩ := main []
    refine ⟨L, hs, ?_⟩
    intro e
    rw [hm e]
    constructor
    · rintro ⟨r, hr, _, he⟩
      exact ⟨r, hr, he⟩
    · rintro ⟨r, hr, he⟩
      exact ⟨r, hr, rfl, he⟩
  · obtain ⟨L, hs, hm⟩ := main [(ParamKey.has_weight_kg, true)]
    refine ⟨L, hs, ?_⟩
    intro e
    rw [hm e]
    constructor
    · rintro ⟨r, hr, hmf, he⟩
      refine ⟨r, hr, ?_, he⟩
      simpa [matchesFilters, ExerciseRow.param] using hmf
    · rintro ⟨r, hr, hw, he⟩
      refine ⟨r, hr, ?_, he⟩
      simp [matchesFilters, ExerciseRow.param, hw]

/-- Witness for C6 on a two-exercise store (only "Bench" has the weight
flag): the theorem applies, and the weight filter concretely returns
exactly the "Bench" exercise. -/
theorem search_by_parameters_exact_witness :
    (∃ L, search_exercises_by_parameters witnessExDB
        [(ParamKey.has_weight_kg, true)] = .ok L ∧
       ∀ e, e ∈ L ↔ ∃ r ∈ witnessExDB.exercises, r.has_weight_kg = true ∧
         e = r.toExercise) ∧
    search_exercises_by_parameters witnessExDB [(ParamKey.has_weight_kg, true)] =
      .ok [witnessExRow1.toExercise] := by
  refine ⟨(search_by_parameters_exact witnessExDB
      (by intro r hr; fin_cases hr <;> rfl)).2.2, ?_⟩
  have hfil : witnessExDB.exercises.filter
      (matchesFilters [(ParamKey.has_weight_kg, true)]) = [witnessExRow1] := rfl
  have hsort : sortByName [witnessExRow1] = [witnessExRow1] := by
    simp [sortByName]
  show rowsToExercises (sortByName (witnessExDB.exercises.filter
      (matchesFilters [(ParamKey.has_weight_kg, true)]))) = .ok [witnessExRow1.toExercise]
  rw [hfil, hsort]
  rfl

/-! ### Claim C1: workout progress on zero and four sets -/

/-- C1: on a workout with zero exercise sets, `get_workout_progress` does
NOT return the zero-result dict: the aggregate's select-list expression
divides `COUNT(*) = 0` by itself and the call raises the storage fault (the
zero-dict fallback in the Python source is unreachable).  On a workout with
four sets of which three are completed it returns
`completion_percentage = 75.0` as claimed. -/
theorem workout_progress_zero_faults_and_75 :
    get_workout_progress zeroSetsDB 1 = .error "division by zero" ∧
    get_workout_progress progressDB 1 =
      .ok { total_sets := 4, completed_sets := 3, completion_percentage := 75,
            is_workout_complete := false } := by
  constructor
  · rfl
  · have h75 : dec2 ((3 : ℚ) * 100 / (4 : ℚ)) = 75 := by
      norm_num [dec2, round_eq]
    show Except.ok
        { total_sets := 4,
          completed_sets := 3,
          completion_percentage := dec2 ((3 : ℚ) * 100 / (4 : ℚ)),
          is_workout_complete := false } =
      (Except.ok
        { total_sets := 4,
          completed_sets := 3,
          completion_percentage := 75,
          is_workout_complete := false } : Except String WorkoutProgress)
    rw [h75]

/-! ### Claim C3: create / get-by-id round trip -/

/-- Counterexample to C3 as stated: `cexUser` is a valid record whose
`password_hash` is set; creating it (with no password argument) and fetching
it back yields a record that differs from the input on `password_hash`,
which is neither the identifier nor a timestamp — `create_user` derives the
stored hash from the separate `password` argument and discards the field on
the input record. -/
theorem create_get_roundtrip_counterexample :
    userPostInit cexUser = .ok cexUser ∧
    create_user (fun p => p) {} cexUser none = .ok (cexCreated, cexDB2) ∧
    get_user cexDB2 1 = .ok (some cexCreated) ∧
    cexCreated.password_hash ≠ cexUser.password_hash := by
  refine ⟨rfl, rfl, rfl, by decide⟩

/-- The `__post_init__` checks only read `age`, `weight_kg` and `email`:
a record agreeing with a valid one on those three fields is valid. -/
theorem userPostInit_of_agree (u v : User) (ha : v.age = u.age)
    (hw : v.weight_kg = u.weight_kg) (he : v.email = u.email)
    (h : userPostInit u = .ok u) : userPostInit v = .ok v := by
  simp only [userPostInit] at h ⊢
  split at h
  · cases h
  · split at h
    · cases h
    · split at h
      · cases h
      · rename_i h1 h2 h3
        rw [if_neg (by rw [ha]; exact h1), if_neg (by rw [hw]; exact h2),
            if_neg (by rw [he]; exact h3)]

/-- C3 (amended): for every valid user record, in a store whose rows do not
already use the next serial id (true of every store the gateway builds), a
successful `create_user` assigns non-null id and timestamps, and
`get_user` on the new id returns a record equal to the input on every field
except the server-assigned id / `created_at` / `updated_at` AND
`password_hash`, which is derived from the separately-passed password;
`weight_kg` round-trips when it is representable at the column's two-decimal
precision. -/
theorem create_get_roundtrip (hash : String → String) (db : DB) (user : User)
    (password : Option String) (u2 : User) (db2 : DB)
    (hfresh : db.users.all (fun r => r.id ≠ db.nextUserId) = true)
    (hvalid : userPostInit user = .ok user)
    (hrep : user.weight_kg.all (fun w => dec2 w = w) = true)
    (hok : create_user hash db user password = .ok (u2, db2)) :
    u2.id = some db.nextUserId ∧ u2.created_at = some db.now ∧
    u2.updated_at = some db.now ∧
    get_user db2 db.nextUserId =
      .ok (some { user with
                   id := u2.id,
                   password_hash := u2.password_hash,
                   created_at := u2.created_at,
                   updated_at := u2.updated_at }) := by
  have hwmap : user.weight_kg.map dec2 = user.weight_kg := by
    cases hweq : user.weight_kg with
    | none => rfl
    | some w =>
      rw [hweq] at hrep
      simp only [Option.all_some] at hrep
      simp [of_decide_eq_true hrep]
  simp only [create_user] at hok
  split at hok
  · cases hok
  · split at hok
    · cases hok
    · split at hok
      · cases hok
      · cases hok
        refine ⟨rfl, rfl, rfl, ?_⟩
        have hpf : db.users.find? (fun r => r.id = db.nextUserId) = none := by
          rw [List.find?_eq_none]
          intro r hr
          simp only [List.all_eq_true] at hfresh
          simpa using hfresh r hr
        simp only [get_user]
        rw [List.find?_append, hpf, Option.none_or,
            List.find?_cons_of_pos _ (by simp)]
        show Except.map some (userPostInit _) = _
        have hpost := userPostInit_of_agree user
          (UserRow.toUser
            { id := db.nextUserId, name := user.name, surname := user.surname,
              email := user.email,
              password_hash :=
                match password with
                | some p => if p = "" then none else some (hash p)
                | none => none,
              age := user.age, weight_kg := user.weight_kg.map dec2,
              created_at := db.now, updated_at := db.now })
          rfl hwmap rfl hvalid
        rw [hpost]
        simp [UserRow.toUser, Except.map, hwmap]

/-- Witness for C3 (amended) at a concrete input: creating `rtUser` with
password "pw" (identity hash) on the empty store and fetching id 1 returns
the record with only id, hash and timestamps changed. -/
theorem create_get_roundtrip_witness :
    rtCreated.id = some 1 ∧ rtCreated.created_at = some 0 ∧
    rtCreated.updated_at = some 0 ∧
    get_user rtDB2 1 =
      .ok (some { rtUser with
                   id := rtCreated.id,
                   password_hash := rtCreated.password_hash,
                   created_at := rtCreated.created_at,
                   updated_at := rtCreated.updated_at }) :=
  create_get_roundtrip (fun p => p) {} rtUser (some "pw") rtCreated rtDB2
    rfl rfl rfl rfl

end KlimFit
